import Mathlib

/-!
Verification development for the silx data-view dispatch engine
(`silx/gui/data/DataViews.py`) and the curves ROI engine
(`silx/gui/plot/CurvesROIWidget.py`).

The Python code is shallowly embedded: Python objects that the routing
logic inspects become inductive data, dict state becomes association
lists (Python dicts preserve insertion order), floats become rationals,
and a raised Python exception becomes an explicit `PyError` value.
Definitions come first, then the theorems about them.
-/

namespace Silx

/-- A Python exception relevant to the embedded code paths. -/
inductive PyError where
  /-- `NameError`: the named identifier is not defined. -/
  | nameError (name : String)
  /-- `AttributeError`: object of the first-named kind has no attribute
  of the second name. -/
  | attributeError (obj : String) (attr : String)
  /-- `AssertionError` raised by a failing `assert` statement. -/
  | assertionError
  deriving DecidableEq, Repr

/-! ## Data model for `DataViews.py`

`DataInfo.__init__` classifies an opaque data handle through the
predicates `silx.io.is_group`, `nxdata.is_valid`, `isinstance(data,
numpy.ndarray)`, `silx.io.is_dataset`, `hasattr(data, "dtype")`,
`hasattr(data, "shape")`, `isinstance(data, numbers.Number)`, plus the
`interpretation` attribute and the dtype/shape of the NXdata signal.
Each predicate becomes a field of `H5Raw`. -/

/-- Classification of a numpy dtype as the code uses it:
`numpy.issubdtype(dtype, numpy.number)` (numeric), `dtype.fields is not
None` (record with named sub-fields), or anything else. -/
inductive PyDtype where
  | numeric
  | record
  | other
  deriving DecidableEq, Repr

/-- An opaque non-`None` data handle, described by the exact predicates
`DataInfo.__init__` evaluates on it. -/
structure H5Raw where
  /-- `silx.io.is_group(data)` -/
  isGroup : Bool := false
  /-- `silx.io.nxdata.is_valid(data)` -/
  nxValid : Bool := false
  /-- `isinstance(data, numpy.ndarray)` -/
  isNdarray : Bool := false
  /-- `silx.io.is_dataset(data)` -/
  isDataset : Bool := false
  /-- `hasattr(data, "shape")` -/
  hasShape : Bool := false
  /-- the value of `data.shape` when present (a tuple of sizes) -/
  shape : List Nat := []
  /-- `hasattr(data, "dtype")` -/
  hasDtype : Bool := false
  /-- the classification of `data.dtype` when present -/
  dtype : PyDtype := .other
  /-- `data.attrs.get("interpretation", None)` for datasets -/
  attrsInterpretation : Option String := none
  /-- `nxdata.get_interpretation(data)` for valid NXdata groups -/
  nxInterpretation : Option String := none
  /-- classification of `nxdata.get_signal(data).dtype` -/
  nxSignalDtype : PyDtype := .other
  /-- `nxdata.get_signal(data).shape` -/
  nxSignalShape : List Nat := []
  /-- `isinstance(data, numbers.Number)` -/
  isNumber : Bool := false
  deriving DecidableEq, Repr

/-- A data value as passed around by `DataViews.py`: `None`, an `H5Node`
wrapper (whose `h5py_object` is the wrapped handle), or a plain handle. -/
inductive PyData where
  | none
  | h5node (d : H5Raw)
  | obj (d : H5Raw)
  deriving DecidableEq, Repr

/-- `_normalizeData`: unwrap an `H5Node` to its `h5py_object`, return
anything else unchanged. -/
def normalizeData : PyData → PyData
  | .h5node d => .obj d
  | d => d

/-- The record computed by `DataInfo.__init__`. -/
structure DataInfo where
  isArray : Bool := false
  interpretation : Option String := none
  isNumeric : Bool := false
  isRecord : Bool := false
  isNXdata : Bool := false
  shape : List Nat := []
  dim : Nat := 0
  deriving DecidableEq, Repr

/-- Body of `DataInfo.__init__` for a non-`None` normalized handle
(lines 87-120 of `DataViews.py`). -/
def DataInfo.ofRaw (d : H5Raw) : DataInfo :=
  -- if silx.io.is_group(data) and nxdata.is_valid(data): isNXdata = True
  let isNXdata := d.isGroup && d.nxValid
  -- isArray: numpy array, or a dataset whose shape is not the empty tuple
  let isArray := d.isNdarray || (d.isDataset && decide (d.shape ≠ []))
  -- interpretation: dataset attribute, else NXdata declared value, else None
  let interpretation :=
    if d.isDataset then d.attrsInterpretation
    else if isNXdata then d.nxInterpretation
    else Option.none
  -- isNumeric / isRecord from data.dtype when present, else from the
  -- NXdata signal dtype (isRecord keeps its False default there), else
  -- from isinstance(data, numbers.Number)
  let isNumeric :=
    if d.hasDtype then d.dtype = PyDtype.numeric
    else if isNXdata then d.nxSignalDtype = PyDtype.numeric
    else d.isNumber
  let isRecord := if d.hasDtype then d.dtype = PyDtype.record else false
  -- shape from data.shape when present, else the NXdata signal shape,
  -- else the empty tuple; dim = len(shape)
  let shape :=
    if d.hasShape then d.shape
    else if isNXdata then d.nxSignalShape
    else []
  { isArray := isArray
    interpretation := interpretation
    isNumeric := isNumeric
    isRecord := isRecord
    isNXdata := isNXdata
    shape := shape
    dim := shape.length }

/-- `DataInfo.__init__`: normalize the data; `None` keeps every default
(the constructor returns before touching any attribute). -/
def DataInfo.ofData (data : PyData) : DataInfo :=
  match normalizeData data with
  | .none => {}
  | .h5node d | .obj d => DataInfo.ofRaw d

/-- `DataView.UNSUPPORTED`, the sentinel priority. -/
def UNSUPPORTED : Int := -1

/-- `_Plot1dView.getDataPriority` (lines 385-397 of `DataViews.py`).
`info.shape[0]` is embedded as `info.shape.getD 0 0`; the real
`DataInfo` always satisfies `dim = len(shape)`, so the index is in
bounds whenever that branch is reached. -/
def plot1dGetDataPriority (data : PyData) (info : DataInfo) : Int :=
  if data = PyData.none ∨ info.isArray = false ∨ info.isNumeric = false then
    UNSUPPORTED
  else if info.dim < 1 then
    UNSUPPORTED
  else if info.interpretation = some "spectrum" then 1000
  else if info.dim = 2 ∧ info.shape.getD 0 0 = 1 then 210
  else if info.dim = 1 then 100
  else 10

/-- Priority of the 1D plot view as the specification words it: the
unsupported sentinel when data is `None`, or the info is not a numeric
array, or `dim < 1`; otherwise 1000 for an explicit "spectrum"
interpretation, 210 for a single-row 2D array, 100 for a 1D array, and
10 for anything else. -/
def plot1dPrioritySpec (data : PyData) (info : DataInfo) : Int :=
  if data = PyData.none ∨ ¬(info.isArray ∧ info.isNumeric) ∨ info.dim < 1 then
    -1
  else if info.interpretation = some "spectrum" then 1000
  else if info.dim = 2 ∧ info.shape.getD 0 0 = 1 then 210
  else if info.dim = 1 then 100
  else 10

/-- A concrete numeric 1D spectrum handle, used by the C3 witness. -/
def spectrumData : PyData := PyData.obj { isNdarray := true }

/-- A concrete `DataInfo` for a 1D numeric "spectrum" array, used by the
C3 witness. -/
def spectrumInfo : DataInfo :=
  { isArray := true, interpretation := some "spectrum",
    isNumeric := true, shape := [5], dim := 1 }

/-! ## The dispatch engine: `CompositeDataView`

A registered child view is abstracted by its priority and axes-name
functions together with its Python string representation `str(view)`
(which `DataView.__lt__` compares) and an object identity. The
composite's `__views` dict keys are kept as a list in registration
order. -/

/-- A child `DataView` as the composite dispatch logic sees it. -/
structure ChildView where
  /-- object identity (two registered views are distinct objects) -/
  id : Nat
  /-- `str(view)`, the value `DataView.__lt__` compares -/
  strRepr : String
  /-- `view.getDataPriority(data, info)` -/
  priority : PyData → DataInfo → Int
  /-- `view.axesNames(data, info)` -/
  axes : PyData → DataInfo → List String

/-- Ordering of the `(priority, view)` tuples that
`CompositeDataView.getBestView` sorts: Python tuple comparison tries the
integer first and, on equal integers and distinct objects, falls back to
`DataView.__lt__`, which compares `str(self) < str(other)`. -/
def tupleLt (a b : Int × ChildView) : Prop :=
  a.1 < b.1 ∨ (a.1 = b.1 ∧ a.2.strRepr < b.2.strRepr)

instance (a b : Int × ChildView) : Decidable (tupleLt a b) := by
  unfold tupleLt
  exact inferInstance

/-- One insertion step of the stable descending sort performed by
`sorted(views, reverse=True)`: the new element is placed before the
first element it is not smaller than. -/
def pyInsertDesc (x : Int × ChildView) :
    List (Int × ChildView) → List (Int × ChildView)
  | [] => [x]
  | y :: ys => if tupleLt x y then y :: pyInsertDesc x ys else x :: y :: ys

/-- `sorted(views, reverse=True)`: stable, descending under `tupleLt`. -/
def pySortDesc : List (Int × ChildView) → List (Int × ChildView)
  | [] => []
  | x :: xs => pyInsertDesc x (pySortDesc xs)

/-- `CompositeDataView.getBestView` (lines 268-280 of `DataViews.py`).
The `info` argument is ignored: the method recomputes `DataInfo(data)`
and shadows it. Collect `(priority, view)` pairs over the registered
views, keep those strictly above the sentinel, sort descending, and
return the head view, or `None` when nothing is left. -/
def compositeGetBestView (views : List ChildView) (data : PyData)
    (_info : DataInfo) : Option ChildView :=
  let info := DataInfo.ofData data
  let pairs := (views.map fun v => (v.priority data info, v)).filter
    fun t => decide (UNSUPPORTED < t.1)
  match pySortDesc pairs with
  | [] => Option.none
  | (p, v) :: _ => if p = UNSUPPORTED then Option.none else some v

/-- Mutable state of a `CompositeDataView`: the registered views (the
keys of the `__views` dict, in registration order) and the
`__currentView` reference. The per-view cached widget-container index is
pure GUI bookkeeping and is not modeled. -/
structure CompositeState where
  views : List ChildView
  currentView : Option ChildView

/-- `CompositeDataView.getDataPriority` (lines 330-336): resolve the
best view, store it as `__currentView`, then return its priority (or the
sentinel when no view supports the data). -/
def compositeGetDataPriority (s : CompositeState) (data : PyData)
    (info : DataInfo) : Int × CompositeState :=
  let view := compositeGetBestView s.views data info
  let s' := { s with currentView := view }
  match view with
  | Option.none => (UNSUPPORTED, s')
  | some v => (v.priority data info, s')

/-- `CompositeDataView.axesNames` (lines 325-328): resolve the best
view, store it as `__currentView`, then call its `axesNames`. When no
view supports the data the stored `None` is dereferenced and an
`AttributeError` is raised. -/
def compositeAxesNames (s : CompositeState) (data : PyData)
    (info : DataInfo) : Except PyError (List String) × CompositeState :=
  let view := compositeGetBestView s.views data info
  let s' := { s with currentView := view }
  match view with
  | Option.none => (.error (.attributeError "NoneType" "axesNames"), s')
  | some v => (.ok (v.axes data info), s')

/-- `CompositeDataView.setData` (lines 319-323): if `__currentView` is
`None` return immediately; otherwise push the data into the current view
(via `__updateDisplayedView` and `setData`). The first component is the
child view that receives the data; `__currentView` is NOT re-resolved
and the composite state is unchanged. -/
def compositeSetData (s : CompositeState) (_data : PyData) :
    Option ChildView × CompositeState :=
  match s.currentView with
  | Option.none => (Option.none, s)
  | some v => (some v, s)

/-- A child view that accepts everything with priority 100 ("best"). -/
def supportedView : ChildView :=
  { id := 0, strRepr := "S", priority := fun _ _ => 100, axes := fun _ _ => [] }

/-- A child view that supports nothing (always the sentinel). -/
def unsupportedView : ChildView :=
  { id := 1, strRepr := "U", priority := fun _ _ => -1, axes := fun _ _ => [] }

/-- A composite whose cached current view is `unsupportedView` while the
best view for any data is `supportedView`; used for the C2
counterexample. -/
def staleComposite : CompositeState :=
  { views := [supportedView, unsupportedView],
    currentView := some unsupportedView }

/-- First-registered view of a tied pair: priority 5, `str` = "A". -/
def tieViewA : ChildView :=
  { id := 0, strRepr := "A", priority := fun _ _ => 5, axes := fun _ _ => [] }

/-- Second-registered view of a tied pair: priority 5, `str` = "B". -/
def tieViewB : ChildView :=
  { id := 1, strRepr := "B", priority := fun _ _ => 5, axes := fun _ _ => [] }

/-! ## Data model for `CurvesROIWidget.py`

The ROI table owns two insertion-ordered dicts (`roidict` mapping ROI
name to ROI object, `_RoiToItems` mapping ROI name to the displayed row
item) plus the table rows themselves. Dicts become association lists;
the row item stored in `_RoiToItems` is reduced to its presence (the
rows are tracked separately as the ordered list of ROI names in the
first column). Curve values are rationals standing for Python floats. -/

/-- The active curve of the host plot: its x data and y data. -/
structure Curve where
  x : List Rat
  y : List Rat
  deriving DecidableEq, Repr

/-- The host plot as the ROI table reads it. -/
structure PlotModel where
  activeCurve : Option Curve
  deriving DecidableEq, Repr

/-- A ROI object (`class ROI`, lines 824-847 of `CurvesROIWidget.py`),
with the `__init__` defaults. The Python attribute `type` is the field
`type` here. -/
structure PyROI where
  name : String
  fromdata : Option Rat := none
  todata : Option Rat := none
  draggable : Bool := false
  color : String := "blue"
  type : String := "Default"
  rawCounts : Option Rat := none
  netCounts : Option Rat := none
  deriving DecidableEq, Repr

/-- Insert a sample into a list sorted ascending by x, after every
sample whose x is less than or equal: folded from the left this is a
stable ascending sort by x. -/
def insertByX (l : List (Rat × Rat)) (p : Rat × Rat) : List (Rat × Rat) :=
  match l with
  | [] => [p]
  | q :: qs => if q.1 ≤ p.1 then q :: insertByX qs p else p :: q :: qs

/-- `numpy.argsort(x, kind='mergesort')` followed by `numpy.take` on x
and y: the (x, y) samples sorted by x with a stable sort. -/
def stableSortByX (l : List (Rat × Rat)) : List (Rat × Rat) :=
  l.foldl insertByX []

/-- The windowing and counting part of `_computeRawAndNetCounts`
(lines 555-571 of `CurvesROIWidget.py`) on the samples already sorted by
x: keep samples with `fromdata <= x <= todata` (inclusive); raw is the
sum of the windowed y; net is raw minus the sum of the linear background
through the first and last windowed points, or 0 when the window's
x-extent is not positive; both are 0 when the window is empty. -/
def computeCounts (sorted : List (Rat × Rat)) (fromdata todata : Rat) :
    Rat × Rat :=
  let w := sorted.filter fun p => decide (fromdata ≤ p.1 ∧ p.1 ≤ todata)
  match w with
  | [] => (0, 0)
  | p0 :: rest =>
    let plast := rest.getLastD p0
    let raw := ((p0 :: rest).map Prod.snd).sum
    let deltaX := plast.1 - p0.1
    let deltaY := plast.2 - p0.2
    if 0 < deltaX then
      let slope := deltaY / deltaX
      let background := (p0 :: rest).map fun p => p0.2 + slope * (p.1 - p0.1)
      (raw, raw - background.sum)
    else
      (raw, 0)

/-- `ROITable._computeRawAndNetCounts` (lines 534-571) as written: when
the table has no plot or the plot has no active curve it returns
`(None, None)`; otherwise the samples are sorted by x and then line 550
evaluates `roiName == 'ICR'` — but no variable `roiName` exists in the
method (the parameter is `roi`), so a `NameError` is raised before any
count is computed. -/
def ROITable.computeRawAndNetCounts (plot : Option PlotModel)
    (_roi : PyROI) : Except PyError (Option (Rat × Rat)) :=
  match plot with
  | Option.none => .ok Option.none
  | some p =>
    match p.activeCurve with
    | Option.none => .ok Option.none
    | some c =>
      let _sorted := stableSortByX (c.x.zip c.y)
      .error (.nameError "roiName")

/-- Mutable state of a `ROITable`. -/
structure ROITableState where
  /-- `self.plot` -/
  plot : Option PlotModel := none
  /-- `self.roidict`: ROI name to ROI object -/
  roidict : List (String × PyROI) := []
  /-- `self._RoiToItems`: ROI name to displayed row item -/
  roiToItems : List (String × Unit) := []
  /-- the ROI names shown in column 0, in row order -/
  rows : List String := []
  /-- `self.activeRoi` -/
  activeRoi : Option PyROI := none
  deriving DecidableEq, Repr

/-- Python dict lookup over an insertion-ordered association list. -/
def alistLookup {α : Type} (l : List (String × α)) (k : String) :
    Option α :=
  match l with
  | [] => Option.none
  | (k', v) :: t => if k' = k then some v else alistLookup t k

/-- Python dict assignment: overwrite the entry in place when the key is
present, append otherwise. -/
def alistInsert {α : Type} (l : List (String × α)) (k : String) (v : α) :
    List (String × α) :=
  match l with
  | [] => [(k, v)]
  | (k', v') :: t =>
      if k' = k then (k, v) :: t else (k', v') :: alistInsert t k v

/-- Python dict deletion of a key. -/
def alistRemove {α : Type} (l : List (String × α)) (k : String) :
    List (String × α) :=
  match l with
  | [] => []
  | (k', v) :: t =>
      if k' = k then alistRemove t k else (k', v) :: alistRemove t k

/-- The keys of an association list, in dict insertion order. -/
def keysOf {α : Type} (l : List (String × α)) : List String :=
  l.map Prod.fst

/-- `ROITable._updateRoiInfo` (lines 585-612): return early when the
name is not a `roidict` key; assert the ROI's name is a `_RoiToItems`
key; refresh the display cells (pure GUI text, not modeled) and call
`_computeRawAndNetCounts`, whose `NameError` propagates when the plot
has an active curve. Neither mapping is modified; the result is the
exception the call raises, if any. -/
def ROITable.updateRoiInfo (t : ROITableState) (roiName : String) :
    Option PyError :=
  match alistLookup t.roidict roiName with
  | Option.none => Option.none
  | some roi =>
    match alistLookup t.roiToItems roi.name with
    | Option.none => some .assertionError
    | some _ =>
      match ROITable.computeRawAndNetCounts t.plot roi with
      | .error e => some e
      | .ok _ => Option.none

/-- `ROITable.addRoi` (lines 449-466): add a row at the end, store the
row item under the ROI name in `_RoiToItems`, store the ROI in
`roidict`, make it the active ROI, then run `_updateRoiInfo` (whose
exception, if any, propagates only after both mappings were updated). -/
def ROITable.addRoi (t : ROITableState) (roi : PyROI) :
    ROITableState × Option PyError :=
  let t1 := { t with rows := t.rows ++ [roi.name],
                     roiToItems := alistInsert t.roiToItems roi.name (),
                     roidict := alistInsert t.roidict roi.name roi,
                     activeRoi := some roi }
  (t1, ROITable.updateRoiInfo t1 roi.name)

/-- `ROITable.removeROI` (lines 519-532): a silent no-op when the name
is not a `_RoiToItems` key (`if name in self._RoiToItems`); otherwise
the item's row and the `_RoiToItems` entry are removed, then
`assert name in self.roidict` runs, and on success the `roidict` entry
is deleted too. The assert is checked here up front, but each branch
returns exactly the Python outcome: on an assert failure the row and
`_RoiToItems` deletions have already happened and `roidict` is left
untouched. -/
def ROITable.removeROI (t : ROITableState) (name : String) :
    ROITableState × Option PyError :=
  if name ∈ keysOf t.roiToItems then
    if name ∈ keysOf t.roidict then
      ({ t with rows := t.rows.erase name,
                roiToItems := alistRemove t.roiToItems name,
                roidict := alistRemove t.roidict name }, Option.none)
    else
      ({ t with rows := t.rows.erase name,
                roiToItems := alistRemove t.roiToItems name },
       some .assertionError)
  else (t, Option.none)

/-- `ROITable.clear` (lines 394-401): reset `_RoiToItems` to a fresh
empty dict and remove every row from the table widget; `roidict` and
`activeRoi` are left untouched. -/
def ROITable.clear (t : ROITableState) : ROITableState :=
  { t with roiToItems := [], rows := [] }

/-- Loop of `ROITable.setRois` (lines 441-447): a ROI object is always
truthy, so the first iteration evaluates `isinstance(roi, _ROI)` — and
no `_ROI` name is defined anywhere in the module, so a `NameError` is
raised; an empty list finishes the loop without adding anything. -/
def ROITable.setRoisLoop (t : ROITableState) :
    List PyROI → ROITableState × Option PyError
  | [] => (t, Option.none)
  | _ :: _ => (t, some (.nameError "_ROI"))

/-- `ROITable.setRois` (lines 422-447): assert the ordering key is one
of `None`, "from", "to", "type"; clear the table (which leaves `roidict`
untouched); then iterate over the given ROIs. -/
def ROITable.setRois (t : ROITableState) (rois : List PyROI)
    (order : Option String) : ROITableState × Option PyError :=
  if order = Option.none ∨ order = some "from" ∨ order = some "to" ∨
      order = some "type" then
    ROITable.setRoisLoop (ROITable.clear t) rois
  else (t, some .assertionError)

/-- `ROITable.getROIListAndDict` (lines 624-630): returns
`(list(self.roidict.values()), self.roidict)`. -/
def ROITable.getROIListAndDict (t : ROITableState) :
    List PyROI × List (String × PyROI) :=
  (t.roidict.map Prod.snd, t.roidict)

/-- A persisted ROI record: the `{'type', 'name', 'from', 'to'}` dict
written by `ROI.toDict`, with optional cached counts that a foreign
document may carry. -/
structure RoiRecord where
  type : String
  name : String
  fromdata : Option Rat
  todata : Option Rat
  rawcounts : Option Rat := none
  netcounts : Option Rat := none
  deriving DecidableEq, Repr

/-- The document stored under the top-level `ROI` key by the persistence
format: an ordered `roilist` and a name-keyed `roidict`. -/
structure RoiDocument where
  roilist : List RoiRecord
  roidict : List (String × RoiRecord)
  deriving DecidableEq, Repr

/-- `ROITable.save` (lines 767-781) as written: its first statement is
`self.roiTable.save(filename)`, but `ROITable` objects have no attribute
`roiTable` (those lines were pasted from the enclosing widget), so every
call raises `AttributeError` before anything is serialized. -/
def ROITable.save (_t : ROITableState) : Except PyError RoiDocument :=
  .error (.attributeError "ROITable" "roiTable")

/-- `ROITable.load` (lines 783-798) as written: the loop over the
document's roidict values pops the cached counts and then calls
`ROI._frmDict`, which does not exist on class `ROI`, so any document
with at least one record raises `AttributeError` on `_frmDict`; with an
empty roidict the loop is skipped and the final
`self.roiTable.setRois(rois)` raises `AttributeError` on `roiTable`. -/
def ROITable.load (_t : ROITableState) (doc : RoiDocument) :
    Except PyError ROITableState :=
  match doc.roidict with
  | [] => .error (.attributeError "ROITable" "roiTable")
  | _ :: _ => .error (.attributeError "ROI" "_frmDict")

/-- `ROI.toDict` (lines 841-847): only `type`, `name`, `from`, `to` are
serialized; counts are never written. -/
def PyROI.toDict (r : PyROI) : RoiRecord :=
  { type := r.type, name := r.name, fromdata := r.fromdata,
    todata := r.todata }

/-- The document `ROITable.save` builds after its faulty first statement
(lines 774-781): the `toDict` of every ROI, as a list and as a
name-keyed dict. -/
def ROITable.saveDocument (t : ROITableState) : RoiDocument :=
  { roilist := (t.roidict.map Prod.snd).map PyROI.toDict
    roidict := t.roidict.map fun p => (p.2.name, PyROI.toDict p.2) }

/-- Modelled from the spec: `ROI._frmDict`, called by `ROITable.load`
but missing from the source, rebuilds a ROI from a persisted record;
fields the record does not carry keep the `ROI.__init__` defaults. -/
def ROI.frmDict (rec : RoiRecord) : PyROI :=
  { name := rec.name, type := rec.type, fromdata := rec.fromdata,
    todata := rec.todata }

/-- Lines 789-796 of `ROITable.load` with `ROI._frmDict` supplied as
intended: pop `rawcounts` and `netcounts` from every record of the
document's roidict and rebuild the ROI objects. -/
def ROITable.loadRoisIntended (doc : RoiDocument) : List PyROI :=
  doc.roidict.map fun p =>
    ROI.frmDict { p.2 with rawcounts := none, netcounts := none }

/-- The spec's example curve `x=[0,1,2,3,4]`, `y=[0,1,4,1,0]`. -/
def exampleCurve : Curve := { x := [0, 1, 2, 3, 4], y := [0, 1, 4, 1, 0] }

/-- A table whose plot has the example curve as its active curve. -/
def exampleTableWithCurve : ROITableState :=
  { plot := some { activeCurve := some exampleCurve } }

/-- The spec's example ROI over `[1, 3]`. -/
def exampleRoi : PyROI :=
  { name := "roi1", fromdata := some 1, todata := some 3 }

/-- A ROI named "a" with the constructor defaults. -/
def roiA : PyROI := { name := "a" }

/-- A ROI named "b" with the constructor defaults. -/
def roiB : PyROI := { name := "b" }

/-- The freshly constructed, empty ROI table (no plot). -/
def emptyTable : ROITableState := {}

/-- The empty table after `addRoi(roiA)`. -/
def tableWithA : ROITableState := (ROITable.addRoi emptyTable roiA).1

/-- Key-set agreement of the table's two name-keyed mappings. -/
def keySetEq (t : ROITableState) : Prop :=
  ∀ k, k ∈ keysOf t.roidict ↔ k ∈ keysOf t.roiToItems

end Silx

namespace Silx

/-! ## Theorems -/

/-- `DataInfo` always satisfies `dim = len(shape)`. -/
theorem DataInfo.dim_eq_shape_length (data : PyData) :
    (DataInfo.ofData data).dim = (DataInfo.ofData data).shape.length := by
  cases data with
  | none => rfl
  | h5node d => rfl
  | obj d => rfl

/-- C9: constructing `DataInfo` with `data = None` never raises (the
embedded constructor is total and returns before inspecting any
attribute) and yields `isArray=False`, `isNumeric=False`,
`isRecord=False`, `isNXdata=False`, `interpretation=None`, `shape=()`
and `dim=0`. -/
theorem C9_dataInfo_none :
    DataInfo.ofData PyData.none =
      { isArray := false, interpretation := Option.none, isNumeric := false,
        isRecord := false, isNXdata := false, shape := [], dim := 0 } := rfl

/-- C3: for every `(data, info)` pair whose shape and dimension agree
(as every real `DataInfo` does), the 1D plot view's priority is exactly
the tiered value the specification states: the unsupported sentinel when
data is `None`, the info is not a numeric array, or `dim < 1`; else 1000
for interpretation "spectrum", else 210 when `dim = 2` and
`shape[0] = 1`, else 100 when `dim = 1`, else 10. -/
theorem C3_plot1d_priority (data : PyData) (info : DataInfo)
    (h : info.dim = info.shape.length) :
    plot1dGetDataPriority data info = plot1dPrioritySpec data info := by
  unfold plot1dGetDataPriority plot1dPrioritySpec UNSUPPORTED
  split_ifs <;> simp_all

/-- Witness for C3: a 1-dimensional numeric array annotated "spectrum"
satisfies the shape/dim hypothesis and scores 1000 on both the code side
and the specification side. -/
theorem C3_plot1d_priority_witness :
    spectrumInfo.dim = spectrumInfo.shape.length ∧
    plot1dGetDataPriority spectrumData spectrumInfo =
      plot1dPrioritySpec spectrumData spectrumInfo ∧
    plot1dGetDataPriority spectrumData spectrumInfo = 1000 :=
  ⟨rfl, C3_plot1d_priority spectrumData spectrumInfo rfl, by decide⟩

/-- The tuple order is asymmetric. -/
theorem tupleLt_asymm {a b : Int × ChildView} (h : tupleLt a b) :
    ¬ tupleLt b a := by
  unfold tupleLt at h ⊢
  intro h'
  rcases h with h | ⟨hp, hs⟩
  · rcases h' with h' | ⟨hp', hs'⟩
    · omega
    · omega
  · rcases h' with h' | ⟨hp', hs'⟩
    · omega
    · exact absurd hs' (lt_asymm hs)

/-- The tuple order is a strict weak order: if `a < b` then for any `c`,
`a < c` or `c < b`. -/
theorem tupleLt_cotrans {a b : Int × ChildView} (c : Int × ChildView)
    (h : tupleLt a b) : tupleLt a c ∨ tupleLt c b := by
  rcases h with h | ⟨hp, hs⟩
  · rcases lt_trichotomy a.1 c.1 with h1 | h1 | h1
    · exact Or.inl (Or.inl h1)
    · exact Or.inr (Or.inl (by omega))
    · exact Or.inr (Or.inl (by omega))
  · rcases lt_trichotomy a.1 c.1 with h1 | h1 | h1
    · exact Or.inl (Or.inl h1)
    · rcases lt_trichotomy a.2.strRepr c.2.strRepr with h2 | h2 | h2
      · exact Or.inl (Or.inr ⟨h1, h2⟩)
      · exact Or.inr (Or.inr ⟨by omega, h2 ▸ hs⟩)
      · exact Or.inr (Or.inr ⟨by omega, lt_trans h2 hs⟩)
    · exact Or.inr (Or.inl (by omega))

/-- One insertion step adds exactly one element. -/
theorem pyInsertDesc_length (x : Int × ChildView) :
    ∀ l : List (Int × ChildView),
      (pyInsertDesc x l).length = l.length + 1 := by
  intro l
  induction l with
  | nil => rfl
  | cons y ys ih =>
      by_cases h : tupleLt x y
      · have h1 : pyInsertDesc x (y :: ys) = y :: pyInsertDesc x ys :=
          if_pos h

        rw [h1]
        simp [ih]
      · have h1 : pyInsertDesc x (y :: ys) = x :: y :: ys := if_neg h
        rw [h1]
        rfl

/-- The Python sort preserves length. -/
theorem pySortDesc_length :
    ∀ l : List (Int × ChildView), (pySortDesc l).length = l.length := by
  intro l
  induction l with
  | nil => rfl
  | cons x xs ih =>
      have h1 : pySortDesc (x :: xs) = pyInsertDesc x (pySortDesc xs) := rfl
      rw [h1, pyInsertDesc_length, ih]
      rfl

/-- The head of the Python descending sort is an element of the input
that no input element strictly exceeds in the tuple order. -/
theorem pySortDesc_head_max :
    ∀ (l : List (Int × ChildView)) (m : Int × ChildView)
      (rest : List (Int × ChildView)),
      pySortDesc l = m :: rest → m ∈ l ∧ ∀ y ∈ l, ¬ tupleLt m y := by
  intro l
  induction l with
  | nil => intro m rest h; cases h
  | cons x xs ih =>
      intro m rest h
      have hx : pySortDesc (x :: xs) = pyInsertDesc x (pySortDesc xs) := rfl
      rw [hx] at h
      cases hs : pySortDesc xs with
      | nil =>
          rw [hs] at h
          have h1 : pyInsertDesc x [] = [x] := rfl
          rw [h1] at h
          cases h
          have hxs : xs = [] := by
            have hlen := pySortDesc_length xs
            rw [hs] at hlen
            exact List.length_eq_zero.mp hlen.symm
          subst hxs
          refine ⟨List.mem_cons_self _ _, ?_⟩
          intro y hy
          rcases List.mem_cons.mp hy with hy | hy
          · subst hy; exact fun hlt => tupleLt_asymm hlt hlt
          · cases hy
      | cons z zs =>
          rw [hs] at h
          obtain ⟨hzmem, hzmax⟩ := ih z zs hs
          have h2 : pyInsertDesc x (z :: zs) =
              if tupleLt x z then z :: pyInsertDesc x zs
              else x :: z :: zs := rfl
          rw [h2] at h
          by_cases hxz : tupleLt x z
          · -- tupleLt x z: the old head z stays in front
            rw [if_pos hxz] at h
            cases h
            refine ⟨List.mem_cons_of_mem _ hzmem, ?_⟩
            intro y hy
            rcases List.mem_cons.mp hy with hy | hy
            · subst hy; exact fun hlt => tupleLt_asymm hxz hlt
            · exact hzmax y hy
          · -- ¬ tupleLt x z: x becomes the new head
            rw [if_neg hxz] at h
            cases h
            refine ⟨List.mem_cons_self _ _, ?_⟩
            intro y hy
            rcases List.mem_cons.mp hy with hy | hy
            · subst hy; exact fun hlt => tupleLt_asymm hlt hlt
            · intro hlt
              rcases tupleLt_cotrans z hlt with hc | hc
              · exact hxz hc
              · exact hzmax y hy hc

/-- C4 (amended): `getBestView` ignores the `info` argument (it
recomputes `DataInfo(data)` internally), so the selection is a
deterministic function of the registered views and the data; and when it
returns a view `v`, that view is registered, supported, and maximal
under the actual tie-break: every other supported view either has a
strictly lower priority, or ties in priority and has a string
representation no greater than `v`'s — ties are decided by
`DataView.__lt__` comparing `str(view)`, not by registration order. -/
theorem C4_getBestView_deterministic_maximal (views : List ChildView)
    (data : PyData) (info info' : DataInfo) (v : ChildView)
    (h : compositeGetBestView views data info = some v) :
    compositeGetBestView views data info =
      compositeGetBestView views data info' ∧
    v ∈ views ∧
    UNSUPPORTED < v.priority data (DataInfo.ofData data) ∧
    ∀ w ∈ views, UNSUPPORTED < w.priority data (DataInfo.ofData data) →
      w.priority data (DataInfo.ofData data) <
          v.priority data (DataInfo.ofData data) ∨
        (w.priority data (DataInfo.ofData data) =
            v.priority data (DataInfo.ofData data) ∧
          ¬ v.strRepr < w.strRepr) := by
  refine ⟨rfl, ?_⟩
  have h' : (match pySortDesc
        ((views.map fun u => (u.priority data (DataInfo.ofData data), u)).filter
          fun t => decide (UNSUPPORTED < t.1)) with
      | [] => (Option.none : Option ChildView)
      | (p, v) :: _ => if p = UNSUPPORTED then Option.none else some v) =
      some v := h
  clear h
  generalize hpairs :
    (views.map fun u => (u.priority data (DataInfo.ofData data), u)).filter
      (fun t => decide (UNSUPPORTED < t.1)) = pairs at h'
  cases hsort : pySortDesc pairs with
  | nil => rw [hsort] at h'; cases h'
  | cons m rest =>
      rw [hsort] at h'
      obtain ⟨p, w⟩ := m
      obtain ⟨hmem, hmax⟩ := pySortDesc_head_max pairs (p, w) rest hsort
      by_cases hp : p = UNSUPPORTED
      · simp only [hp, if_pos rfl] at h'; cases h'
      · simp only [if_neg hp] at h'
        cases h'
        have hmem' := hmem
        rw [← hpairs, List.mem_filter] at hmem'
        obtain ⟨hmap, hpos⟩ := hmem'
        rw [List.mem_map] at hmap
        obtain ⟨u, hu, hequ⟩ := hmap
        have huv : u = v := congrArg Prod.snd hequ
        have hupr : u.priority data (DataInfo.ofData data) = p :=
          congrArg Prod.fst hequ
        subst huv
        refine ⟨hu, by rw [hupr]; exact of_decide_eq_true hpos, ?_⟩
        intro w' hw' hw'pos
        have hwpair : (w'.priority data (DataInfo.ofData data), w') ∈ pairs := by
          rw [← hpairs, List.mem_filter]
          exact ⟨List.mem_map.mpr ⟨w', hw', rfl⟩, decide_eq_true hw'pos⟩
        have hnlt := hmax _ hwpair
        unfold tupleLt at hnlt
        push_neg at hnlt
        obtain ⟨hle, himp⟩ := hnlt
        simp only [hupr]
        rcases lt_or_eq_of_le hle with hlt | heq
        · exact Or.inl hlt
        · exact Or.inr ⟨heq, himp heq.symm⟩

/-- Witness for C4 (amended): on a one-view composite the selected view
is that view, which is registered, supported, and trivially maximal. -/
theorem C4_getBestView_witness :
    compositeGetBestView [supportedView] PyData.none spectrumInfo =
      compositeGetBestView [supportedView] PyData.none {} ∧
    supportedView ∈ [supportedView] ∧
    UNSUPPORTED <
      supportedView.priority PyData.none (DataInfo.ofData PyData.none) ∧
    ∀ w ∈ [supportedView],
      UNSUPPORTED < w.priority PyData.none (DataInfo.ofData PyData.none) →
      w.priority PyData.none (DataInfo.ofData PyData.none) <
          supportedView.priority PyData.none (DataInfo.ofData PyData.none) ∨
        (w.priority PyData.none (DataInfo.ofData PyData.none) =
            supportedView.priority PyData.none (DataInfo.ofData PyData.none) ∧
          ¬ supportedView.strRepr < w.strRepr) :=
  C4_getBestView_deterministic_maximal [supportedView] PyData.none
    spectrumInfo {} supportedView rfl

/-- Counterexample to C4 as stated: two registered views tie at
priority 5 with the first-registered one first in the iteration order,
yet `getBestView` selects the SECOND-registered view, because the
descending tuple sort breaks the tie by `str(view)` ("B" sorts above
"A"), not by first-seen registration order. -/
theorem C4_tie_not_first_seen :
    tieViewA.priority PyData.none (DataInfo.ofData PyData.none) =
      tieViewB.priority PyData.none (DataInfo.ofData PyData.none) ∧
    UNSUPPORTED < tieViewA.priority PyData.none (DataInfo.ofData PyData.none) ∧
    tieViewA.strRepr ≠ tieViewB.strRepr ∧
    compositeGetBestView [tieViewA, tieViewB] PyData.none {} = some tieViewB ∧
    tieViewB.id ≠ tieViewA.id := by
  refine ⟨rfl, by decide, by decide, ?_, by decide⟩
  have hABstr : ("A" : String) < "B" := by
    rw [String.lt_iff_toList_lt]
    decide
  have hAB : tupleLt ((5 : Int), tieViewA) ((5 : Int), tieViewB) :=
    Or.inr ⟨rfl, hABstr⟩
  have hsort : pySortDesc [((5 : Int), tieViewA), ((5 : Int), tieViewB)] =
      [((5 : Int), tieViewB), ((5 : Int), tieViewA)] := by
    show pyInsertDesc (5, tieViewA) (pyInsertDesc (5, tieViewB) []) = _
    show (if tupleLt ((5 : Int), tieViewA) ((5 : Int), tieViewB) then
        ((5 : Int), tieViewB) :: pyInsertDesc (5, tieViewA) []
      else ((5 : Int), tieViewA) :: [((5 : Int), tieViewB)]) = _
    rw [if_pos hAB]
    rfl
  show (match pySortDesc
        (([tieViewA, tieViewB].map fun u =>
            (u.priority PyData.none (DataInfo.ofData PyData.none), u)).filter
          fun t => decide (UNSUPPORTED < t.1)) with
    | [] => (Option.none : Option ChildView)
    | (p, v) :: _ => if p = UNSUPPORTED then Option.none else some v) =
    some tieViewB
  have hlist : (([tieViewA, tieViewB].map fun u =>
        (u.priority PyData.none (DataInfo.ofData PyData.none), u)).filter
      fun t => decide (UNSUPPORTED < t.1)) =
      [((5 : Int), tieViewA), ((5 : Int), tieViewB)] := rfl
  rw [hlist, hsort]
  show (if (5 : Int) = UNSUPPORTED then (Option.none : Option ChildView)
      else some tieViewB) = some tieViewB
  rw [if_neg (by decide)]

/-- C2 (amended): `getDataPriority` and `axesNames` each re-invoke
`getBestView` and cache the resolved child as the composite's current
view — so a priority query mutates the composite's state — while
`setData` does NOT re-resolve: it pushes the data into the previously
cached current view and leaves the state unchanged, which is exactly why
the earlier priority query determines what a subsequent `setData`
renders. -/
theorem C2_composite_caching (s : CompositeState) (data : PyData)
    (info : DataInfo) :
    (compositeGetDataPriority s data info).2.currentView =
      compositeGetBestView s.views data info ∧
    (compositeAxesNames s data info).2.currentView =
      compositeGetBestView s.views data info ∧
    compositeSetData s data = (s.currentView, s) := by
  refine ⟨?_, ?_, ?_⟩
  · unfold compositeGetDataPriority
    cases compositeGetBestView s.views data info <;> rfl
  · unfold compositeAxesNames
    cases compositeGetBestView s.views data info <;> rfl
  · unfold compositeSetData
    cases s.currentView <;> rfl

/-- Counterexample to C2 as stated: on a composite whose cached current
view is `unsupportedView` while the best view for the data is
`supportedView`, `setData` renders into `unsupportedView` and leaves the
current view untouched — it does not re-invoke `getBestView` (which
would have selected `supportedView`). -/
theorem C2_setData_does_not_reresolve :
    (compositeSetData staleComposite PyData.none).1 = some unsupportedView ∧
    (compositeSetData staleComposite PyData.none).2.currentView =
      some unsupportedView ∧
    compositeGetBestView staleComposite.views PyData.none {} =
      some supportedView ∧
    supportedView.id ≠ unsupportedView.id :=
  ⟨rfl, rfl, rfl, by decide⟩

/-- Dict lookup misses exactly the non-keys. -/
theorem alistLookup_eq_none_iff {α : Type} (l : List (String × α))
    (k : String) : alistLookup l k = Option.none ↔ k ∉ keysOf l := by
  induction l with
  | nil => simp [alistLookup, keysOf]
  | cons p t ih =>
      obtain ⟨k', v⟩ := p
      show (if k' = k then some v else alistLookup t k) = Option.none ↔
        k ∉ keysOf ((k', v) :: t)
      by_cases h : k' = k
      · rw [if_pos h]
        subst h
        simp [keysOf]
      · rw [if_neg h]
        simp only [keysOf, List.map_cons, List.mem_cons] at ih ⊢
        rw [ih]
        constructor
        · intro hnot hor
          rcases hor with hor | hor
          · exact h hor.symm
          · exact hnot hor
        · intro hnot hmem
          exact hnot (Or.inr hmem)

/-- Keys after a dict assignment: the old keys plus the assigned one. -/
theorem mem_keysOf_alistInsert {α : Type} (l : List (String × α))
    (k k' : String) (v : α) :
    k ∈ keysOf (alistInsert l k' v) ↔ k ∈ keysOf l ∨ k = k' := by
  induction l with
  | nil => simp [alistInsert, keysOf, eq_comm]
  | cons p t ih =>
      obtain ⟨k0, v0⟩ := p
      show k ∈ keysOf (if k0 = k' then (k', v) :: t
          else (k0, v0) :: alistInsert t k' v) ↔ _
      by_cases h : k0 = k'
      · rw [if_pos h]
        subst h
        simp only [keysOf, List.map_cons, List.mem_cons]
        tauto
      · rw [if_neg h]
        simp only [keysOf, List.map_cons, List.mem_cons] at ih ⊢
        rw [ih]
        tauto

/-- Keys after a dict deletion: the old keys except the deleted one. -/
theorem mem_keysOf_alistRemove {α : Type} (l : List (String × α))
    (k k' : String) :
    k ∈ keysOf (alistRemove l k') ↔ k ∈ keysOf l ∧ k ≠ k' := by
  induction l with
  | nil => simp [alistRemove, keysOf]
  | cons p t ih =>
      obtain ⟨k0, v0⟩ := p
      show k ∈ keysOf (if k0 = k' then alistRemove t k'
          else (k0, v0) :: alistRemove t k') ↔ _
      by_cases h : k0 = k'
      · rw [if_pos h]
        subst h
        simp only [keysOf, List.map_cons, List.mem_cons] at ih ⊢
        rw [ih]
        constructor
        · intro ⟨hmem, hne⟩
          exact ⟨Or.inr hmem, hne⟩
        · intro ⟨hor, hne⟩
          rcases hor with hor | hor
          · exact absurd hor hne
          · exact ⟨hor, hne⟩
      · rw [if_neg h]
        simp only [keysOf, List.map_cons, List.mem_cons] at ih ⊢
        rw [ih]
        constructor
        · intro hor
          rcases hor with hor | ⟨hmem, hne⟩
          · exact ⟨Or.inl hor, hor ▸ h⟩
          · exact ⟨Or.inr hmem, hne⟩
        · intro ⟨hor, hne⟩
          rcases hor with hor | hor
          · exact Or.inl hor
          · exact Or.inr ⟨hor, hne⟩

/-- C1: the specification says `_computeRawAndNetCounts` windows the
sorted active curve and returns `raw=6`, `net=3` on the example curve
`x=[0,1,2,3,4]`, `y=[0,1,4,1,0]` with ROI `[1,3]` — but the method reads
the undefined variable `roiName` (line 550) before windowing, so on any
table whose plot has an active curve it raises `NameError` instead of
returning counts. -/
theorem C1_computeRawAndNetCounts_raises :
    ROITable.computeRawAndNetCounts exampleTableWithCurve.plot exampleRoi =
      .error (.nameError "roiName") := rfl

/-- The dead windowing code of `_computeRawAndNetCounts` (lines 555-571,
reachable once `roiName` is read as `roi.name` as evidently intended)
computes exactly the claimed values on the example: raw = 1+4+1 = 6, and
net = 6 minus the flat background 1+1+1 = 3. -/
theorem computeCounts_example :
    computeCounts (stableSortByX (exampleCurve.x.zip exampleCurve.y)) 1 3 =
      (6, 3) := by
  have hs : stableSortByX (exampleCurve.x.zip exampleCurve.y) =
      [((0 : Rat), (0 : Rat)), (1, 1), (2, 4), (3, 1), (4, 0)] := rfl
  have hw : List.filter (fun p => decide ((1 : Rat) ≤ p.1 ∧ p.1 ≤ 3))
      [((0 : Rat), (0 : Rat)), (1, 1), (2, 4), (3, 1), (4, 0)] =
      [(1, 1), (2, 4), (3, 1)] := rfl
  rw [hs]
  simp only [computeCounts, hw]
  norm_num [List.getLastD]

/-- The zero-width window of the spec (`from=to=2` catches the single
sample y=4): raw 4 and net 0 through the `deltaX = 0` branch. -/
theorem computeCounts_zero_width :
    computeCounts (stableSortByX (exampleCurve.x.zip exampleCurve.y)) 2 2 =
      (4, 0) := by
  have hs : stableSortByX (exampleCurve.x.zip exampleCurve.y) =
      [((0 : Rat), (0 : Rat)), (1, 1), (2, 4), (3, 1), (4, 0)] := rfl
  have hw : List.filter (fun p => decide ((2 : Rat) ≤ p.1 ∧ p.1 ≤ 2))
      [((0 : Rat), (0 : Rat)), (1, 1), (2, 4), (3, 1), (4, 0)] =
      [(2, 4)] := rfl
  rw [hs]
  simp only [computeCounts, hw]
  norm_num [List.getLastD]

/-- The empty window of the spec (`from=10`, `to=20` outside the curve
domain): raw 0 and net 0. -/
theorem computeCounts_empty_window :
    computeCounts (stableSortByX (exampleCurve.x.zip exampleCurve.y)) 10 20 =
      (0, 0) := by
  have hs : stableSortByX (exampleCurve.x.zip exampleCurve.y) =
      [((0 : Rat), (0 : Rat)), (1, 1), (2, 4), (3, 1), (4, 0)] := rfl
  have hw : List.filter (fun p => decide ((10 : Rat) ≤ p.1 ∧ p.1 ≤ 20))
      [((0 : Rat), (0 : Rat)), (1, 1), (2, 4), (3, 1), (4, 0)] = [] := rfl
  rw [hs]
  simp only [computeCounts, hw]

/-- C5: the specification says `save` then `load` round-trips the ROIs'
name/type/from/to — but `ROITable.save`'s first statement dereferences
the nonexistent attribute `self.roiTable`, so saving a table holding one
ROI raises `AttributeError` before writing anything (and `load` raises
as well, through the missing `ROI._frmDict`). -/
theorem C5_save_raises :
    ROITable.save tableWithA =
      .error (.attributeError "ROITable" "roiTable") := rfl

/-- `ROITable.load` on a one-record document raises through the missing
`ROI._frmDict`. -/
theorem load_raises_frmDict :
    ROITable.load emptyTable
        { roilist := [PyROI.toDict roiA],
          roidict := [("a", PyROI.toDict roiA)] } =
      .error (.attributeError "ROI" "_frmDict") := rfl

/-- The intended round-trip behind C5: serializing with the document
builder of lines 774-781 and rebuilding with the count-stripping loop of
lines 789-796 preserves every ROI's name, type, from and to, regardless
of any cached counts (`toDict` never writes them and `load` pops
them). -/
theorem saveDocument_roundtrip_intended (t : ROITableState) :
    (ROITable.loadRoisIntended (ROITable.saveDocument t)).map
        (fun r => (r.name, r.type, r.fromdata, r.todata)) =
      (t.roidict.map Prod.snd).map
        (fun r => (r.name, r.type, r.fromdata, r.todata)) := by
  unfold ROITable.loadRoisIntended ROITable.saveDocument
  simp only [List.map_map]
  rfl

/-- C6 (amended): `addRoi` and `removeROI` preserve the key-set
agreement of `roidict` and `_RoiToItems`, and removing an existing name
deletes it from both mappings; but `clear` (and `setRois`, which starts
with `clear`) empties only the row-item mapping, leaving `roidict`
unchanged, so the key sets are not identical after every operation. -/
theorem C6_keysets_add_remove (t : ROITableState) (roi : PyROI)
    (name : String) (h : keySetEq t) :
    keySetEq (ROITable.addRoi t roi).1 ∧
    keySetEq (ROITable.removeROI t name).1 ∧
    (name ∈ keysOf t.roiToItems →
      name ∉ keysOf (ROITable.removeROI t name).1.roidict ∧
      name ∉ keysOf (ROITable.removeROI t name).1.roiToItems) := by
  refine ⟨?_, ?_, ?_⟩
  · intro k
    show k ∈ keysOf (alistInsert t.roidict roi.name roi) ↔
      k ∈ keysOf (alistInsert t.roiToItems roi.name ())
    rw [mem_keysOf_alistInsert, mem_keysOf_alistInsert]
    exact or_congr (h k) Iff.rfl
  · by_cases hk : name ∈ keysOf t.roiToItems
    · have hk2 : name ∈ keysOf t.roidict := (h name).mpr hk
      unfold ROITable.removeROI
      rw [if_pos hk, if_pos hk2]
      intro k
      show k ∈ keysOf (alistRemove t.roidict name) ↔
        k ∈ keysOf (alistRemove t.roiToItems name)
      rw [mem_keysOf_alistRemove, mem_keysOf_alistRemove]
      exact and_congr (h k) Iff.rfl
    · unfold ROITable.removeROI
      rw [if_neg hk]
      exact h
  · intro hmem
    have hmem' : name ∈ keysOf t.roidict := (h name).mpr hmem
    unfold ROITable.removeROI
    rw [if_pos hmem, if_pos hmem']
    constructor
    · show name ∉ keysOf (alistRemove t.roidict name)
      rw [mem_keysOf_alistRemove]
      intro ⟨_, hne⟩
      exact hne rfl
    · show name ∉ keysOf (alistRemove t.roiToItems name)
      rw [mem_keysOf_alistRemove]
      intro ⟨_, hne⟩
      exact hne rfl

/-- Witness for C6 (amended): on the concrete one-ROI table the
hypothesis holds and adding "b" and removing "a" preserve the key-set
agreement, with "a" removed from both mappings. -/
theorem C6_keysets_witness :
    keySetEq (ROITable.addRoi tableWithA roiB).1 ∧
    keySetEq (ROITable.removeROI tableWithA "a").1 ∧
    ("a" ∈ keysOf tableWithA.roiToItems →
      "a" ∉ keysOf (ROITable.removeROI tableWithA "a").1.roidict ∧
      "a" ∉ keysOf (ROITable.removeROI tableWithA "a").1.roiToItems) :=
  C6_keysets_add_remove tableWithA roiB "a" (fun _ => Iff.rfl)

/-- Counterexample to C6 as stated: after adding ROI "a" and clearing,
the name-to-ROI mapping still holds the key "a" while the row-item
mapping is empty — the key sets differ after `clear`. -/
theorem C6_clear_breaks_keysets :
    "a" ∈ keysOf (ROITable.clear tableWithA).roidict ∧
    "a" ∉ keysOf (ROITable.clear tableWithA).roiToItems := by
  exact ⟨by decide, by decide⟩

/-- C7: the specification says `setRois` replaces the full ROI set with
the given ROIs — but the loop's first iteration evaluates
`isinstance(roi, _ROI)` with `_ROI` undefined, so setting any non-empty
ROI list raises `NameError` (after clearing only the rows); and since
`clear` leaves `roidict` untouched, even `setRois([])` fails to replace
the previous set (the ordering-key assertion itself behaves as
claimed). -/
theorem C7_setRois_raises :
    ROITable.setRois tableWithA [roiB] Option.none =
      (ROITable.clear tableWithA, some (.nameError "_ROI")) ∧
    (ROITable.setRois tableWithA [] Option.none).1.roidict =
      tableWithA.roidict ∧
    tableWithA.roidict ≠ [] ∧
    ROITable.setRois tableWithA [roiB] (some "bogus") =
      (tableWithA, some .assertionError) := by
  exact ⟨rfl, rfl, by decide, rfl⟩

/-- C8: removing a name that is present in neither mapping is a silent
no-op: no exception, and the table state (both mappings, the rows, the
active ROI) is returned unchanged. -/
theorem C8_removeROI_noop (t : ROITableState) (name : String)
    (h1 : name ∉ keysOf t.roiToItems) (h2 : name ∉ keysOf t.roidict) :
    ROITable.removeROI t name = (t, Option.none) := by
  unfold ROITable.removeROI
  rw [if_neg h1]

/-- Witness for C8: the name "b" is in neither mapping of the one-ROI
table, and removing it returns the table unchanged with no exception. -/
theorem C8_removeROI_noop_witness :
    ("b" ∉ keysOf tableWithA.roiToItems) ∧
    ("b" ∉ keysOf tableWithA.roidict) ∧
    ROITable.removeROI tableWithA "b" = (tableWithA, Option.none) :=
  ⟨by decide, by decide,
   C8_removeROI_noop tableWithA "b" (by decide) (by decide)⟩

/-- C10: `clear` empties only the name-to-row-item mapping and the
displayed rows; `roidict` (and the active ROI) are left unchanged, so
`getROIListAndDict` still returns every ROI added before the clear. -/
theorem C10_clear_leaves_roidict (t : ROITableState) :
    (ROITable.clear t).roidict = t.roidict ∧
    (ROITable.clear t).roiToItems = [] ∧
    (ROITable.clear t).rows = [] ∧
    (ROITable.clear t).activeRoi = t.activeRoi ∧
    ROITable.getROIListAndDict (ROITable.clear t) =
      (t.roidict.map Prod.snd, t.roidict) :=
  ⟨rfl, rfl, rfl, rfl, rfl⟩

end Silx
